import Mathlib

/-!
Verification development for the ProSA-OVServer transmission client.

This file gives a shallow embedding of the core of the repository:
the protocol codec (`src/transmission/api.rs`), the fetch state machine,
the session handling and the torrent lifecycle policy
(`src/transmission/adaptor.rs`), and proves the specification claims
about them.  Rust `u64`/`u32` values are modelled as `Nat`, `i64` as
`Int`; `chrono` date/duration values are modelled by their integral
second count together with the explicit range checks chrono performs.
-/

namespace OVServer

/-- Minimal JSON value model, the target of the serde serializers.
Object member order is the serialization order. -/
inductive Json where
  | null
  | bool (b : Bool)
  | num (n : Int)
  | float (f : Float)
  | str (s : String)
  | arr (elems : List Json)
  | obj (members : List (String × Json))

/-- Lookup of an object member by key; `none` on non-objects. -/
def Json.lookupMember : Json → String → Option Json
  | .obj ms, k => ms.lookup k
  | _, _ => none

/-- Whether a JSON object carries a member with the given key. -/
def Json.hasMember (j : Json) (k : String) : Bool :=
  match j with
  | .obj ms => ms.any fun kv => kv.fst == k
  | _ => false

/-- A `chrono::DateTime<Utc>` produced by the codec, as whole seconds
since the Unix epoch (every value built here has zero sub-seconds). -/
structure Timestamp where
  secs : Int
deriving DecidableEq

/-- A `chrono::TimeDelta` with zero sub-seconds. -/
structure TimeDelta where
  secs : Int
deriving DecidableEq

/-- Smallest timestamp representable by `chrono` (`NaiveDate::MIN`,
January 1 of year -262144, at midnight). -/
def datetimeMinSecs : Int := -8334632851200

/-- Largest timestamp representable by `chrono` (`NaiveDate::MAX`,
December 31 of year 262143, at 23:59:59). -/
def datetimeMaxSecs : Int := 8210298412799

/-- `chrono::DateTime::from_timestamp_secs`: `none` out of range. -/
def DateTime.from_timestamp_secs (ts : Int) : Option Timestamp :=
  if datetimeMinSecs ≤ ts ∧ ts ≤ datetimeMaxSecs then some ⟨ts⟩ else none

/-- Bound on whole seconds of a `chrono::TimeDelta` with zero
nanoseconds: the magnitude of `i64::MAX` milliseconds, in seconds. -/
def timedeltaMaxSecs : Int := 9223372036854775

/-- `chrono::TimeDelta::new(secs, 0)`: `none` when out of bounds. -/
def TimeDelta.newSecs (secs : Int) : Option TimeDelta :=
  if -timedeltaMaxSecs ≤ secs ∧ secs ≤ timedeltaMaxSecs then some ⟨secs⟩ else none

/-- `deserialize_timestamp` from `api.rs`: a Unix-seconds integer,
positive values become an absolute time point, the rest absent. -/
def deserialize_timestamp (v : Option Int) : Option Timestamp :=
  v.bind fun ts => if ts > 0 then DateTime.from_timestamp_secs ts else none

/-- `deserialize_time` from `api.rs`: a seconds count, positive values
become a duration, the rest absent. -/
def deserialize_time (v : Option Int) : Option TimeDelta :=
  v.bind fun ts => if ts > 0 then TimeDelta.newSecs ts else none

/-- Value of one character of the standard base64 alphabet. -/
def b64Index (c : Char) : Option Nat :=
  if 'A' ≤ c ∧ c ≤ 'Z' then some (c.toNat - 65)
  else if 'a' ≤ c ∧ c ≤ 'z' then some (c.toNat - 97 + 26)
  else if '0' ≤ c ∧ c ≤ '9' then some (c.toNat - 48 + 52)
  else if c = '+' then some 62
  else if c = '/' then some 63
  else none

/-- Strict base64 decoding of a character stream, as performed by the
`base64` crate `STANDARD` engine: canonical padding is required, the
length must be a multiple of four, and trailing bits must be zero. -/
def b64DecodeChunks : List Char → Option (List Nat)
  | [] => some []
  | a :: b :: '=' :: '=' :: [] => do
    let va ← b64Index a
    let vb ← b64Index b
    if vb % 16 == 0 then some [va * 4 + vb / 16] else none
  | a :: b :: c :: '=' :: [] => do
    let va ← b64Index a
    let vb ← b64Index b
    let vc ← b64Index c
    if vc % 4 == 0 then some [va * 4 + vb / 16, vb % 16 * 16 + vc / 4] else none
  | a :: b :: c :: d :: rest => do
    let va ← b64Index a
    let vb ← b64Index b
    let vc ← b64Index c
    let vd ← b64Index d
    let tail ← b64DecodeChunks rest
    some ((va * 4 + vb / 16) :: (vb % 16 * 16 + vc / 4) :: (vc % 4 * 64 + vd) :: tail)
  | _ => none

/-- `base64::engine::general_purpose::STANDARD.decode` on a string,
yielding the raw bytes or `none` on any decoding failure. -/
def base64_decode (s : String) : Option (List Nat) :=
  b64DecodeChunks s.toList

/-- `deserialize_bitfield` from `api.rs`: the deserializer always
succeeds on a string input, mapping base64 failures to absent. -/
def deserialize_bitfield (s : String) : Except String (Option (List Nat)) :=
  .ok (base64_decode s)

/-- Decoding of the `pieces` member of a torrent snapshot, combining
the serde attributes on the field: `default` (a missing member decodes
to absent) with `deserialize_with = "deserialize_bitfield"`. -/
def decodePiecesField : Option Json → Except String (Option (List Nat))
  | none => .ok none
  | some (.str s) => deserialize_bitfield s
  | some _ => .error "invalid type: expected a base64 string"

/-- Torrent id number or SHA1 hash string (`api::Id`). -/
inductive Id where
  | id (n : Int)
  | hash (h : String)
deriving DecidableEq

/-- `api::TorrentId`: a single id, a list of ids, or the
`recently-active` sentinel. -/
inductive TorrentId where
  | recentlyActive
  | id (i : Id)
  | list (ids : List Id)
deriving DecidableEq

/-- `api::Priority` (serialized by `repr` value). -/
inductive Priority where
  | low
  | normal
  | high
deriving DecidableEq

/-- `api::IdleLimit` (serialized by `repr` value). -/
inductive IdleLimit where
  | global
  | single
  | unlimited
deriving DecidableEq

/-- `api::RatioLimit` (serialized by `repr` value). -/
inductive RatioLimit where
  | global
  | single
  | unlimited
deriving DecidableEq

/-- `api::Status` of a torrent. -/
inductive Status where
  | stopped
  | checkWait
  | check
  | downloadWait
  | download
  | seedWait
  | seed
deriving DecidableEq

/-- `api::TorrentField`, the requestable torrent-get field names. -/
inductive TorrentField where
  | activityDate
  | addedDate
  | availability
  | bandwidthPriority
  | bytesCompleted
  | comment
  | corruptEver
  | creator
  | dateCreated
  | desiredAvailable
  | doneDate
  | downloadDir
  | downloadedEver
  | downloadLimit
  | downloadLimited
  | editDate
  | error
  | errorString
  | eta
  | etaIdle
  | fileCount
  | files
  | fileStats
  | group
  | hashString
  | haveUnchecked
  | haveValid
  | honorsSessionLimits
  | id
  | isFinished
  | isPrivate
  | isStalled
  | labels
  | leftUntilDone
  | magnetLink
  | maxConnectedPeers
  | metadataPercentComplete
  | name
  | peerLimit
  | peers
  | peersConnected
  | peersFrom
  | peersGettingFromUs
  | peersSendingToUs
  | percentComplete
  | percentDone
  | pieces
  | pieceCount
  | pieceSize
  | priorities
  | primaryMimeType
  | queuePosition
  | rateDownload
  | rateUpload
  | recheckProgress
  | secondsDownloading
  | secondsSeeding
  | seedIdleLimit
  | seedIdleMode
  | seedRatioLimit
  | seedRatioMode
  | sequentialDownload
  | sequentialDownloadFromPiece
  | sizeWhenDone
  | startDate
  | status
  | trackers
  | trackerList
  | trackerStats
  | totalSize
  | torrentFile
  | uploadedEver
  | uploadLimit
  | uploadLimited
  | uploadRatio
  | wanted
  | webseeds
  | webseedsSendingToUs
deriving DecidableEq

/-- Serialized name of a `TorrentField`: serde `camelCase` of the Rust
variant name, with the two explicit renames of `api.rs`. -/
def TorrentField.wireName : TorrentField → String
  | .activityDate => "activityDate"
  | .addedDate => "addedDate"
  | .availability => "availability"
  | .bandwidthPriority => "bandwidthPriority"
  | .bytesCompleted => "bytesCompleted"
  | .comment => "comment"
  | .corruptEver => "corruptEver"
  | .creator => "creator"
  | .dateCreated => "dateCreated"
  | .desiredAvailable => "desiredAvailable"
  | .doneDate => "doneDate"
  | .downloadDir => "downloadDir"
  | .downloadedEver => "downloadedEver"
  | .downloadLimit => "downloadLimit"
  | .downloadLimited => "downloadLimited"
  | .editDate => "editDate"
  | .error => "error"
  | .errorString => "errorString"
  | .eta => "eta"
  | .etaIdle => "etaIdle"
  | .fileCount => "file-count"
  | .files => "files"
  | .fileStats => "fileStats"
  | .group => "group"
  | .hashString => "hashString"
  | .haveUnchecked => "haveUnchecked"
  | .haveValid => "haveValid"
  | .honorsSessionLimits => "honorsSessionLimits"
  | .id => "id"
  | .isFinished => "isFinished"
  | .isPrivate => "isPrivate"
  | .isStalled => "isStalled"
  | .labels => "labels"
  | .leftUntilDone => "leftUntilDone"
  | .magnetLink => "magnetLink"
  | .maxConnectedPeers => "maxConnectedPeers"
  | .metadataPercentComplete => "metadataPercentComplete"
  | .name => "name"
  | .peerLimit => "peer-limit"
  | .peers => "peers"
  | .peersConnected => "peersConnected"
  | .peersFrom => "peersFrom"
  | .peersGettingFromUs => "peersGettingFromUs"
  | .peersSendingToUs => "peersSendingToUs"
  | .percentComplete => "percentComplete"
  | .percentDone => "percentDone"
  | .pieces => "pieces"
  | .pieceCount => "pieceCount"
  | .pieceSize => "pieceSize"
  | .priorities => "priorities"
  | .primaryMimeType => "primaryMimeType"
  | .queuePosition => "queuePosition"
  | .rateDownload => "rateDownload"
  | .rateUpload => "rateUpload"
  | .recheckProgress => "recheckProgress"
  | .secondsDownloading => "secondsDownloading"
  | .secondsSeeding => "secondsSeeding"
  | .seedIdleLimit => "seedIdleLimit"
  | .seedIdleMode => "seedIdleMode"
  | .seedRatioLimit => "seedRatioLimit"
  | .seedRatioMode => "seedRatioMode"
  | .sequentialDownload => "sequentialDownload"
  | .sequentialDownloadFromPiece => "sequentialDownloadFromPiece"
  | .sizeWhenDone => "sizeWhenDone"
  | .startDate => "startDate"
  | .status => "status"
  | .trackers => "trackers"
  | .trackerList => "trackerList"
  | .trackerStats => "trackerStats"
  | .totalSize => "totalSize"
  | .torrentFile => "torrentFile"
  | .uploadedEver => "uploadedEver"
  | .uploadLimit => "uploadLimit"
  | .uploadLimited => "uploadLimited"
  | .uploadRatio => "uploadRatio"
  | .wanted => "wanted"
  | .webseeds => "webseeds"
  | .webseedsSendingToUs => "webseedsSendingToUs"

/-- Serde serialization of an `Id` (untagged): bare number or string. -/
def Id.encode : Id → Json
  | .id n => .num n
  | .hash h => .str h

/-- Serde serialization of a `TorrentId`: the sentinel is the literal
string, the untagged variants keep their bare shapes. -/
def TorrentId.encode : TorrentId → Json
  | .recentlyActive => .str "recently-active"
  | .id i => i.encode
  | .list ids => .arr (ids.map Id.encode)

/-- `Priority` serialized by its `repr(i8)` value. -/
def Priority.encode : Priority → Json
  | .low => .num (-1)
  | .normal => .num 0
  | .high => .num 1

/-- `IdleLimit` serialized by its `repr(u8)` value. -/
def IdleLimit.encode : IdleLimit → Json
  | .global => .num 0
  | .single => .num 1
  | .unlimited => .num 2

/-- `RatioLimit` serialized by its `repr(u8)` value. -/
def RatioLimit.encode : RatioLimit → Json
  | .global => .num 0
  | .single => .num 1
  | .unlimited => .num 2

/-- `api::TorrentSetParams`, the `torrent-set` mutation parameters.
Every field is optional and defaults to absent, matching
`#[derive(Default)]`; the Rust `f64` field keeps a `Float` type. -/
structure TorrentSetParams where
  bandwidth_priority : Option Priority := none
  download_limit : Option Nat := none
  download_limited : Option Bool := none
  files_unwanted : Option (List Nat) := none
  files_wanted : Option (List Nat) := none
  group : Option String := none
  honors_session_limits : Option Bool := none
  ids : Option (List TorrentId) := none
  labels : Option (List String) := none
  location : Option String := none
  peer_limit : Option Nat := none
  priority_high : Option (List Nat) := none
  priority_low : Option (List Nat) := none
  priority_normal : Option (List Nat) := none
  queue_position : Option Nat := none
  seed_idle_limit : Option Nat := none
  seed_idle_mode : Option IdleLimit := none
  seed_ratio_limit : Option Float := none
  seed_ratio_mode : Option RatioLimit := none
  sequential_download : Option Bool := none
  sequential_download_from_piece : Option Nat := none
  tracker_add : Option (List String) := none
  tracker_list : Option String := none
  tracker_remove : Option (List String) := none
  tracker_replace : Option (List String) := none
  upload_limit : Option Nat := none
  upload_limited : Option Bool := none

/-- One optional object member: absent fields serialize to nothing
(`skip_serializing_none`). -/
def optMember (k : String) (v : Option Json) : List (String × Json) :=
  match v with
  | some j => [(k, j)]
  | none => []

/-- A natural number as a JSON number. -/
def jnum (n : Nat) : Json := .num n

/-- A boolean as a JSON value. -/
def jbool (b : Bool) : Json := .bool b

/-- A string as a JSON value. -/
def jstr (s : String) : Json := .str s

/-- A list of natural numbers as a JSON array. -/
def jnumArr (l : List Nat) : Json := .arr (l.map jnum)

/-- A list of strings as a JSON array. -/
def jstrArr (l : List String) : Json := .arr (l.map jstr)

/-- First third of the `TorrentSetParams` members, in declaration
order (split only to keep each definition small). -/
def TorrentSetParams.encodeA (p : TorrentSetParams) : List (String × Json) :=
  List.flatten
    [optMember "bandwidthPriority" (p.bandwidth_priority.map Priority.encode),
     optMember "downloadLimit" (p.download_limit.map jnum),
     optMember "downloadLimited" (p.download_limited.map jbool),
     optMember "files-unwanted" (p.files_unwanted.map jnumArr),
     optMember "files-wanted" (p.files_wanted.map jnumArr),
     optMember "group" (p.group.map jstr),
     optMember "honorsSessionLimits" (p.honors_session_limits.map jbool),
     optMember "ids" (p.ids.map fun l => .arr (l.map TorrentId.encode)),
     optMember "labels" (p.labels.map jstrArr)]

/-- Second third of the `TorrentSetParams` members. -/
def TorrentSetParams.encodeB (p : TorrentSetParams) : List (String × Json) :=
  List.flatten
    [optMember "location" (p.location.map jstr),
     optMember "peer-limit" (p.peer_limit.map jnum),
     optMember "priority-high" (p.priority_high.map jnumArr),
     optMember "priority-low" (p.priority_low.map jnumArr),
     optMember "priority-normal" (p.priority_normal.map jnumArr),
     optMember "queuePosition" (p.queue_position.map jnum),
     optMember "seedIdleLimit" (p.seed_idle_limit.map jnum),
     optMember "seedIdleMode" (p.seed_idle_mode.map IdleLimit.encode),
     optMember "seedRatioLimit" (p.seed_ratio_limit.map Json.float)]

/-- Last third of the `TorrentSetParams` members. -/
def TorrentSetParams.encodeC (p : TorrentSetParams) : List (String × Json) :=
  List.flatten
    [optMember "seedRatioMode" (p.seed_ratio_mode.map RatioLimit.encode),
     optMember "sequentialDownload" (p.sequential_download.map jbool),
     optMember "sequentialDownloadFromPiece" (p.sequential_download_from_piece.map jnum),
     optMember "trackerAdd" (p.tracker_add.map jstrArr),
     optMember "trackerList" (p.tracker_list.map jstr),
     optMember "trackerRemove" (p.tracker_remove.map jstrArr),
     optMember "trackerReplace" (p.tracker_replace.map jstrArr),
     optMember "uploadLimit" (p.upload_limit.map jnum),
     optMember "uploadLimited" (p.upload_limited.map jbool)]

/-- Serde serialization of `TorrentSetParams`: `camelCase` member names
with the explicit renames of `api.rs`, absent members omitted, in
declaration order. -/
def TorrentSetParams.encode (p : TorrentSetParams) : Json :=
  .obj (p.encodeA ++ p.encodeB ++ p.encodeC)

/-- `api::Method`, the typed remote-procedure calls. -/
inductive Method where
  | TorrentStart (ids : Option TorrentId)
  | TorrentStartNow (ids : Option TorrentId)
  | TorrentStop (ids : Option TorrentId)
  | TorrentVerify (ids : Option TorrentId)
  | TorrentReannounce (ids : Option TorrentId)
  | TorrentSet (params : TorrentSetParams)
  | TorrentGet (fields : List TorrentField) (ids : Option (List TorrentId))
  | TorrentRemove (ids : List TorrentId) (deleteLocalData : Bool)
  | SessionStats

/-- `serialize_method_ids` from `api.rs`: the wire envelope of the
simple calls, with the `arguments` member present exactly when an id
selector is carried. -/
def serialize_method_ids (method_name : String) (ids : Option TorrentId) : Json :=
  .obj (("method", .str method_name) ::
    match ids with
    | some i => [("arguments", .obj [("ids", i.encode)])]
    | none => [])

/-- The `Serialize` implementation of `Method` from `api.rs`. -/
def Method.serialize : Method → Json
  | .TorrentStart ids => serialize_method_ids "torrent-start" ids
  | .TorrentStartNow ids => serialize_method_ids "torrent-start-now" ids
  | .TorrentStop ids => serialize_method_ids "torrent-stop" ids
  | .TorrentVerify ids => serialize_method_ids "torrent-verify" ids
  | .TorrentReannounce ids => serialize_method_ids "torrent-reannounce" ids
  | .TorrentSet params =>
    .obj [("method", .str "torrent-set"), ("arguments", params.encode)]
  | .TorrentGet fields ids =>
    .obj [("method", .str "torrent-get"),
      ("arguments", .obj (("fields", .arr (fields.map fun f => .str f.wireName)) ::
        match ids with
        | some l => [("ids", .arr (l.map TorrentId.encode))]
        | none => []))]
  | .TorrentRemove ids deleteLocalData =>
    .obj [("method", .str "torrent-remove"),
      ("arguments", .obj [("ids", .arr (ids.map TorrentId.encode)),
        ("delete_local_data", .bool deleteLocalData)])]
  | .SessionStats => .obj [("method", .str "session-stats")]

/-- The wire method name of each `Method` variant, as the `Serialize`
implementation writes it. -/
def Method.wire_name : Method → String
  | .TorrentStart _ => "torrent-start"
  | .TorrentStartNow _ => "torrent-start-now"
  | .TorrentStop _ => "torrent-stop"
  | .TorrentVerify _ => "torrent-verify"
  | .TorrentReannounce _ => "torrent-reannounce"
  | .TorrentSet _ => "torrent-set"
  | .TorrentGet _ _ => "torrent-get"
  | .TorrentRemove _ _ => "torrent-remove"
  | .SessionStats => "session-stats"

/-- Whether a `Method` value carries arguments on the wire: the simple
calls carry them exactly when an id selector is present,
`session-stats` never does, every other call always does. -/
def Method.carries_arguments : Method → Bool
  | .TorrentStart ids => ids.isSome
  | .TorrentStartNow ids => ids.isSome
  | .TorrentStop ids => ids.isSome
  | .TorrentVerify ids => ids.isSome
  | .TorrentReannounce ids => ids.isSome
  | .SessionStats => false
  | _ => true

/-- `api::SessionStats` (counters of the running session). -/
structure SessionStats where
  uploaded_bytes : Nat := 0
  downloaded_bytes : Nat := 0
  files_added : Nat := 0
  seconds_active : Option TimeDelta := none
  session_count : Nat := 0
deriving DecidableEq

/-- `api::TorrentsArguments`, a sparse torrent snapshot.  The wire
schema defines about eighty optional members; this embedding keeps
exactly the ones the adaptor and the claims read (`added_date`, `id`,
`status`, `tracker_list`, `upload_limited`) plus `pieces` for the
bitfield decoding claim — every other member is never consulted by the
core logic and would be dead weight in the model.  Absent members
decode to their serde defaults shown here. -/
structure TorrentsArguments where
  added_date : Option Timestamp := none
  id : Option TorrentId := none
  pieces : Option (List Nat) := none
  status : Option Status := none
  tracker_list : Option String := none
  upload_limited : Bool := false
deriving DecidableEq

/-- `api::ResponseArguments`, trimmed to the members the adaptor reads:
the torrent list (serde default empty) and the cumulative session
stats. -/
structure ResponseArguments where
  torrents : List TorrentsArguments := []
  cumulative_stats : Option SessionStats := none
deriving DecidableEq

/-- `api::Response`, the decoded wire response envelope. -/
structure Response where
  arguments : ResponseArguments
  result : String
  tag : Option Nat := none
deriving DecidableEq

/-- Whether `pat` occurs as a contiguous substring of `hay`
(`str::contains` on Rust strings, over character lists). -/
def containsSub (hay pat : List Char) : Bool :=
  match hay with
  | [] => pat.isEmpty
  | _ :: t => pat.isPrefixOf hay || containsSub t pat

/-- Rust `String::contains` for substring search. -/
def strContains (s pat : String) : Bool :=
  containsSub s.toList pat.toList

/-- `adaptor::TorrentFetchState`, the per-cycle fetch state.
`SessionStats` is the `#[default]` variant. -/
inductive TorrentFetchState where
  | SessionStats
  | TorrentGet
  | TorrentMut (methods : List Method)
  | End

/-- `TorrentFetchState::get_method`: the call each state requests next.
The mutation queue issues its first element (`Vec::first`). -/
def TorrentFetchState.get_method : TorrentFetchState → Option Method
  | .SessionStats => some .SessionStats
  | .TorrentGet => some (.TorrentGet
      [.id, .name, .status, .trackerList, .addedDate, .uploadLimited] none)
  | .TorrentMut methods => methods.head?
  | .End => none

/-- `adaptor::TorrentSettings`, the lifecycle policy configuration. -/
structure TorrentSettings where
  tracker_allowlist : List String := []
  remove_after : Option Nat := none
deriving DecidableEq

/-- `TorrentSettings::tracker_allowed`: true when the tracker string
contains some allowlist entry as a substring. -/
def TorrentSettings.tracker_allowed (s : TorrentSettings) (tracker : String) : Bool :=
  s.tracker_allowlist.any fun tracker_allow => strContains tracker tracker_allow

/-- `chrono::DateTime::checked_sub_signed` on a whole-second time
point: `none` when the result leaves the representable range. -/
def Timestamp.checked_sub_signed (t : Timestamp) (secs : Int) : Option Timestamp :=
  let r := t.secs - secs
  if datetimeMinSecs ≤ r ∧ r ≤ datetimeMaxSecs then some ⟨r⟩ else none

/-- `TorrentSettings::need_removal`.  `Utc::now()` is passed in as the
`now` parameter (whole seconds); `Duration::days(d)` is `d * 86400`
seconds.  The source unwraps the checked subtraction and panics when
the cutoff leaves the representable range; that panic is modelled as
`none`, and `some b` is the boolean the source returns. -/
def TorrentSettings.need_removal (s : TorrentSettings) (now : Int)
    (added_date : Timestamp) : Option Bool :=
  match s.remove_after with
  | some d =>
    (Timestamp.checked_sub_signed ⟨now⟩ (86400 * (d : Int))).map fun days =>
      decide (added_date.secs < days.secs)
  | none => some false

/-- The mutable adaptor fields of `adaptor::TorrentAdaptor` that the
state machine reads and writes.  The fixed RPC uri is a constant and
the two metrics watch channels are write-only collaborator outputs, so
neither is part of the state. -/
structure AdaptorState where
  settings : Option TorrentSettings
  state : TorrentFetchState
  session_id : Option String

/-- The fetcher error kinds the adaptor produces or inspects:
a hyper transport error (with its canceled flag), an io error from
body decoding, and the `Other` message errors. -/
inductive FetcherError where
  | hyper (canceled : Bool) (addr : String)
  | io (msg : String)
  | other (msg : String)

/-- `prosa_fetcher::FetchAction` as used here: issue another HTTP
exchange, or stop the cycle. -/
inductive FetchAction where
  | http
  | none

/-- An outgoing HTTP request as the adaptor builds it: verb, path,
headers in insertion order, and the serialized body if any. -/
structure HttpRequest where
  verb : String
  uri : String
  headers : List (String × String)
  body : Option Json

/-- An incoming HTTP response as the adaptor consumes it: the status
code, the session header if present, and the decoded JSON body
(`none` when the body does not parse as a `Response`). -/
structure HttpResponse where
  status : Nat
  session_id_header : Option String
  body : Option Response

/-- `FetcherAdaptor::fetch`: a new cycle always resets the fetch state
to its default (`SessionStats`), discarding any unfinished mutation
queue, and asks for an HTTP exchange. -/
def fetch (a : AdaptorState) : AdaptorState × FetchAction :=
  ({ a with state := .SessionStats }, .http)

/-- The fixed RPC path of the adaptor. -/
def transmission_uri : String := "/transmission/rpc"

/-- The unauthenticated login probe: GET on the RPC path, no body, no
session header. -/
def probe_request : HttpRequest :=
  { verb := "GET", uri := transmission_uri,
    headers := [("connection", "keep-alive"),
                ("accept", "application/json")],
    body := none }

/-- An authenticated call: POST on the RPC path carrying the session
token in the `X-Transmission-Session-Id` header and the serialized
method as body. -/
def rpc_request (session_id : String) (method : Method) : HttpRequest :=
  { verb := "POST", uri := transmission_uri,
    headers := [("connection", "keep-alive"),
                ("content-type", "application/json"),
                ("accept", "application/json"),
                ("X-Transmission-Session-Id", session_id)],
    body := some method.serialize }

/-- `FetcherAdaptor::create_http_request`: with a session token, a POST
of the current state's method with the session header attached (an
error when the state has no method); without a token, the
unauthenticated GET probe. -/
def create_http_request (a : AdaptorState) : Except FetcherError HttpRequest :=
  match a.session_id with
  | some session_id =>
    match a.state.get_method with
    | some method => .ok (rpc_request session_id method)
    | none => .error (.other "Cannot get torrent method for call")
  | none => .ok probe_request

/-- One iteration of the torrent loop in `process_http_response`
(state `TorrentGet`): push the status, then — when a policy is loaded
and the snapshot has an id — append the id to the throttle list when
the torrent is not upload-limited and its tracker list is present and
not allowed, else append it to the removal list when the added date is
present and old enough.  `none` propagates the `need_removal` panic. -/
def torrent_policy_step (settings : Option TorrentSettings) (now : Int)
    (acc : List Status × List TorrentId × List TorrentId)
    (torrent : TorrentsArguments) :
    Option (List Status × List TorrentId × List TorrentId) :=
  let sts := match torrent.status with
    | some st => acc.1 ++ [st]
    | none => acc.1
  let npl := acc.2.1
  let rml := acc.2.2
  match settings, torrent.id with
  | some torrent_settings, some torrent_id =>
    if !torrent.upload_limited &&
        (torrent.tracker_list.any fun t => !torrent_settings.tracker_allowed t) then
      some (sts, npl ++ [torrent_id], rml)
    else
      match torrent.added_date with
      | some d =>
        match torrent_settings.need_removal now d with
        | some true => some (sts, npl, rml ++ [torrent_id])
        | some false => some (sts, npl, rml)
        | Option.none => none
      | Option.none => some (sts, npl, rml)
  | _, _ => some (sts, npl, rml)

/-- The full torrent loop of `process_http_response`, folding
`torrent_policy_step` over the returned snapshots in order. -/
def torrent_policy (settings : Option TorrentSettings) (now : Int) :
    List TorrentsArguments → (List Status × List TorrentId × List TorrentId) →
    Option (List Status × List TorrentId × List TorrentId)
  | [], acc => some acc
  | torrent :: rest, acc =>
    match torrent_policy_step settings now acc torrent with
    | some acc2 => torrent_policy settings now rest acc2
    | Option.none => none

/-- The `torrent-set` call built for a non-empty throttle list:
peer-limit 0, upload-limit 0, upload-limited true. -/
def throttle_call (ids : List TorrentId) : Method :=
  .TorrentSet { ids := some ids, peer_limit := some 0,
                upload_limit := some 0, upload_limited := some true }

/-- Handling of a decoded OK body by `process_http_response`, by
current state: record stats and advance to `TorrentGet`; or run the
policy loop, build the mutation queue (throttle call first, then the
removal call) or finish; or pop the LAST queued mutation
(`Vec::pop`) and continue while the queue is non-empty; or stop.
The two `watch::Sender` broadcasts are collaborator outputs with no
influence on the state machine and are not modelled.  `none`
propagates the `need_removal` panic. -/
def process_ok_body (a : AdaptorState) (now : Int) (api_resp : Response) :
    Option (AdaptorState × Except FetcherError FetchAction) :=
  match a.state with
  | .SessionStats =>
    some ({ a with state := .TorrentGet }, .ok .http)
  | .TorrentGet =>
    match torrent_policy a.settings now api_resp.arguments.torrents ([], [], []) with
    | some (_, torrent_no_peer_list, torrent_rm_list) =>
      if !torrent_no_peer_list.isEmpty || !torrent_rm_list.isEmpty then
        let torrent_mut_list :=
          (if !torrent_no_peer_list.isEmpty then [throttle_call torrent_no_peer_list] else []) ++
          (if !torrent_rm_list.isEmpty then [Method.TorrentRemove torrent_rm_list false] else [])
        some ({ a with state := .TorrentMut torrent_mut_list }, .ok .http)
      else
        some ({ a with state := .End }, .ok FetchAction.none)
    | Option.none => none
  | .TorrentMut torrent_list =>
    let remaining := torrent_list.dropLast
    some ({ a with state := .TorrentMut remaining },
      if remaining.isEmpty then .ok FetchAction.none else .ok .http)
  | .End => some (a, .ok FetchAction.none)

/-- `FetcherAdaptor::process_http_response`: the login path when no
token is held (only statuses 200 and 409 are inspected for the session
header), the authenticated path (200 dispatches on the body and state,
409 invalidates the token and retries, anything else is fatal), and
the transport error paths (a canceled hyper error stops silently).
`none` propagates the `need_removal` panic. -/
def process_http_response (a : AdaptorState) (now : Int)
    (response : Except FetcherError HttpResponse) :
    Option (AdaptorState × Except FetcherError FetchAction) :=
  match response with
  | .ok response =>
    match a.session_id with
    | Option.none =>
      if response.status = 200 ∨ response.status = 409 then
        match response.session_id_header with
        | some session_id => some ({ a with session_id := some session_id }, .ok .http)
        | Option.none =>
          some (a, .error (.other "Cannot retrieve x-transmission-session-id from remote"))
      else
        some (a, .error (.other "Receive error from HTTP remote for login"))
    | some _ =>
      if response.status = 200 then
        match response.body with
        | some api_resp => process_ok_body a now api_resp
        | Option.none => some (a, .error (.io "body does not parse as a Response"))
      else if response.status = 409 then
        some ({ a with session_id := none }, .ok .http)
      else
        some (a, .error (.other "Receive error from HTTP remote"))
  | .error (.hyper canceled addr) =>
    if canceled then some (a, .ok FetchAction.none)
    else some (a, .error (.hyper canceled addr))
  | .error e => some (a, .error e)

/-- The external driver loop: build the next request, consume the next
response, repeat while the adaptor answers `FetchAction.http`.
Returns the requests issued in order, the final adaptor state, and the
final outcome (`.ok .http` when the supplied responses ran out with the
machine still asking for more).  `none` propagates a panic. -/
def runFrom (now : Int) (a : AdaptorState) :
    List (Except FetcherError HttpResponse) →
    Option (List HttpRequest × AdaptorState × Except FetcherError FetchAction)
  | [] => some ([], a, .ok .http)
  | r :: rs =>
    match create_http_request a with
    | .error e => some ([], a, .error e)
    | .ok req =>
      match process_http_response a now r with
      | Option.none => none
      | some (a2, .ok .http) =>
        match runFrom now a2 rs with
        | Option.none => none
        | some (reqs, af, out) => some (req :: reqs, af, out)
      | some (a2, out) => some ([req], a2, out)

/-- One externally triggered cycle: `fetch` (which resets the state to
`SessionStats`) followed by the request/response loop. -/
def runCycle (now : Int) (a : AdaptorState)
    (responses : List (Except FetcherError HttpResponse)) :
    Option (List HttpRequest × AdaptorState × Except FetcherError FetchAction) :=
  runFrom now (fetch a).1 responses

/-- A numeric torrent id selector, used by concrete examples. -/
def tidNum (n : Int) : TorrentId := TorrentId.id (Id.id n)

/-- The state transitions the specification allows within one cycle:
a state may hold (login, conflict recovery, errors, queue progress),
`SessionStats` advances to `TorrentGet`, and `TorrentGet` advances to
a mutation queue or to `End`; `End` and the queue never regress. -/
def stateAdvanceOk : TorrentFetchState → TorrentFetchState → Prop
  | .SessionStats, .SessionStats => True
  | .SessionStats, .TorrentGet => True
  | .TorrentGet, .TorrentGet => True
  | .TorrentGet, .TorrentMut _ => True
  | .TorrentGet, .End => True
  | .TorrentMut _, .TorrentMut _ => True
  | .End, .End => True
  | _, _ => False

/-- The throttle condition exactly as the claim words it: not already
upload-limited, a NON-EMPTY tracker-list value, and no allowlist entry
occurring in it as a substring.  Stated from the specification text,
for comparison against the implementation. -/
def claimThrottleCond (s : TorrentSettings) (t : TorrentsArguments) : Bool :=
  !t.upload_limited &&
    (match t.tracker_list with
     | some tl => (tl != "") && (s.tracker_allowlist.all fun e => !strContains tl e)
     | none => false)

/-- The throttle condition as the implementation checks it: not already
upload-limited, a PRESENT tracker-list value (emptiness is not
checked), and no allowlist entry occurring in it as a substring. -/
def amendedThrottleCond (s : TorrentSettings) (t : TorrentsArguments) : Bool :=
  !t.upload_limited &&
    (match t.tracker_list with
     | some tl => s.tracker_allowlist.all fun e => !strContains tl e
     | none => false)

/-- A snapshot whose tracker-list value is present but empty. -/
def emptyTrackerSnapshot : TorrentsArguments :=
  { id := some (tidNum 1), tracker_list := some "" }

/-! ## Theorems -/

/-- Every state holds under itself in the allowed transition order. -/
theorem stateAdvanceOk_refl (s : TorrentFetchState) : stateAdvanceOk s s := by
  cases s <;> trivial

/-- The policy loop on a single snapshot is one policy step. -/
theorem torrent_policy_singleton (sOpt : Option TorrentSettings) (now : Int)
    (t : TorrentsArguments) :
    torrent_policy sOpt now [t] ([], [], []) = torrent_policy_step sOpt now ([], [], []) t := by
  cases h : torrent_policy_step sOpt now ([], [], []) t <;>
    simp [torrent_policy, h]

/-- Without a loaded policy the loop only collects statuses: both id
lists pass through untouched. -/
theorem torrent_policy_no_settings (now : Int) (ts : List TorrentsArguments) :
    ∀ acc, ∃ sts, torrent_policy none now ts acc = some (sts, acc.2.1, acc.2.2) := by
  induction ts with
  | nil => intro acc; exact ⟨acc.1, rfl⟩
  | cons t rest ih =>
    intro acc
    obtain ⟨sts, hrec⟩ := ih (match t.status with
      | some st => acc.1 ++ [st]
      | none => acc.1, acc.2.1, acc.2.2)
    exact ⟨sts, by simpa [torrent_policy, torrent_policy_step] using hrec⟩

/-- Claim C1 (code_bug): in state `MutateQueue([set, remove])` the
issued request is the FIRST pending call (`Vec::first` in
`get_method`), but on its successful response `process_http_response`
removes the LAST pending call (`Vec::pop`): the queue becomes
`[set]` again, the next issued request is the same first call, and the
removed call is not the one that completed — so the remove call is
never issued and the set call is issued twice, contradicting the
claimed issue-once-in-queue-order behaviour. -/
theorem c1_mutate_queue_pop_mismatch :
    (TorrentFetchState.TorrentMut
        [throttle_call [tidNum 1], Method.TorrentRemove [tidNum 2] false]).get_method
      = some (throttle_call [tidNum 1])
    ∧ process_http_response
        ⟨none, .TorrentMut [throttle_call [tidNum 1], Method.TorrentRemove [tidNum 2] false],
         some "sid"⟩ 0
        (.ok ⟨200, none, some { arguments := {}, result := "success" }⟩)
      = some (⟨none, .TorrentMut [throttle_call [tidNum 1]], some "sid"⟩, .ok .http)
    ∧ (TorrentFetchState.TorrentMut [throttle_call [tidNum 1]]).get_method
      = some (throttle_call [tidNum 1])
    ∧ throttle_call [tidNum 1] ≠ Method.TorrentRemove [tidNum 2] false := by
  refine ⟨rfl, rfl, rfl, ?_⟩
  intro h
  simp only [throttle_call] at h
  exact Method.noConfusion h

/-- Claim C7: every `Method` serializes to a JSON object whose first
member is the wire-exact method name, the `arguments` member is
present exactly when the call carries arguments, the two spec examples
encode as given, and a `TorrentId` encodes as a bare scalar, an array
of bare values, or the literal sentinel string. -/
theorem c7_method_serialization :
    (∀ m : Method, ∃ rest, m.serialize = Json.obj (("method", Json.str m.wire_name) :: rest))
    ∧ (∀ m : Method, m.serialize.hasMember "arguments" = m.carries_arguments)
    ∧ (Method.TorrentStart none).serialize = Json.obj [("method", Json.str "torrent-start")]
    ∧ (Method.TorrentStop (some (tidNum 1))).serialize
      = Json.obj [("method", Json.str "torrent-stop"),
                  ("arguments", Json.obj [("ids", Json.num 1)])]
    ∧ TorrentId.encode (tidNum 7) = Json.num 7
    ∧ TorrentId.encode (TorrentId.id (Id.hash "ABC")) = Json.str "ABC"
    ∧ TorrentId.encode (TorrentId.list [Id.id 7, Id.hash "ABC"])
      = Json.arr [Json.num 7, Json.str "ABC"]
    ∧ TorrentId.encode TorrentId.recentlyActive = Json.str "recently-active" := by
  refine ⟨?_, ?_, rfl, rfl, rfl, rfl, rfl, rfl⟩
  · intro m
    cases m <;> exact ⟨_, rfl⟩
  · intro m
    cases m with
    | TorrentStart ids => cases ids <;> rfl
    | TorrentStartNow ids => cases ids <;> rfl
    | TorrentStop ids => cases ids <;> rfl
    | TorrentVerify ids => cases ids <;> rfl
    | TorrentReannounce ids => cases ids <;> rfl
    | TorrentSet params => rfl
    | TorrentGet fields ids => rfl
    | TorrentRemove ids d => rfl
    | SessionStats => rfl

/-- Claim C8 (counterexample): a positive Unix-seconds integer beyond
the representable range of the date type decodes to absent, not to a
time point, and likewise for the seconds-duration decoder — refuting
"absent when ≤ 0 and a time point / duration value otherwise". -/
theorem c8_counterexample :
    (0 : Int) < 1000000000000000000
    ∧ deserialize_timestamp (some 1000000000000000000) = none
    ∧ (0 : Int) < 10000000000000000
    ∧ deserialize_time (some 10000000000000000) = none := by
  refine ⟨by decide, ?_, by decide, ?_⟩ <;> decide

/-- Claim C8 (amended): an integer ≤ 0 decodes to absent under both
decoders; a positive integer decodes to the corresponding time point
or duration when it is within the representable range of `chrono`,
and to absent when it exceeds it; 0 and −5 decode to absent and
1700000000 decodes to a valid time point. -/
theorem c8_amended (ts : Int) :
    (ts ≤ 0 → deserialize_timestamp (some ts) = none ∧ deserialize_time (some ts) = none)
    ∧ (0 < ts → ts ≤ datetimeMaxSecs → deserialize_timestamp (some ts) = some ⟨ts⟩)
    ∧ (datetimeMaxSecs < ts → deserialize_timestamp (some ts) = none)
    ∧ (0 < ts → ts ≤ timedeltaMaxSecs → deserialize_time (some ts) = some ⟨ts⟩)
    ∧ (timedeltaMaxSecs < ts → deserialize_time (some ts) = none)
    ∧ deserialize_timestamp (some 0) = none
    ∧ deserialize_timestamp (some (-5)) = none
    ∧ deserialize_timestamp (some 1700000000) = some ⟨1700000000⟩
    ∧ deserialize_time (some 0) = none
    ∧ deserialize_time (some (-5)) = none := by
  refine ⟨?_, ?_, ?_, ?_, ?_, by decide, by decide, by decide, by decide, by decide⟩
  · intro h
    constructor <;>
      simp [deserialize_timestamp, deserialize_time, show ¬ts > 0 by omega]
  · intro h1 h2
    have : datetimeMinSecs ≤ ts ∧ ts ≤ datetimeMaxSecs := by
      refine ⟨?_, h2⟩
      have : (0 : Int) ≤ ts := le_of_lt h1
      simp only [datetimeMinSecs]
      omega
    simp [deserialize_timestamp, DateTime.from_timestamp_secs, h1, this]
  · intro h
    have hn : ¬(datetimeMinSecs ≤ ts ∧ ts ≤ datetimeMaxSecs) := by omega
    simp [deserialize_timestamp, DateTime.from_timestamp_secs, hn,
      show ts > 0 by simp only [datetimeMaxSecs] at h; omega]
  · intro h1 h2
    have hb : -timedeltaMaxSecs ≤ ts ∧ ts ≤ timedeltaMaxSecs := by
      refine ⟨?_, h2⟩
      have : (0 : Int) ≤ ts := le_of_lt h1
      simp only [timedeltaMaxSecs]
      omega
    simp [deserialize_time, TimeDelta.newSecs, h1, hb]
  · intro h
    have hn : ¬(-timedeltaMaxSecs ≤ ts ∧ ts ≤ timedeltaMaxSecs) := by omega
    simp [deserialize_time, TimeDelta.newSecs, hn,
      show ts > 0 by simp only [timedeltaMaxSecs] at h; omega]

/-- Witness for the amended C8 statement at 1700000000 and at 25. -/
theorem c8_amended_witness :
    deserialize_timestamp (some 1700000000) = some ⟨1700000000⟩
    ∧ deserialize_time (some 25) = some ⟨25⟩ :=
  ⟨(c8_amended 1700000000).2.1 (by decide) (by decide),
   (c8_amended 25).2.2.2.1 (by decide) (by decide)⟩

/-- Claim C9: decoding a bitfield field from a base64 string yields the
raw bytes when the string is valid base64 and absent when it is not,
in both cases succeeding (so the surrounding envelope decode is never
failed by it); a missing member decodes to absent as well. -/
theorem c9_bitfield_decode :
    (∀ s bytes, base64_decode s = some bytes →
      decodePiecesField (some (Json.str s)) = Except.ok (some bytes))
    ∧ (∀ s, base64_decode s = none → decodePiecesField (some (Json.str s)) = Except.ok none)
    ∧ decodePiecesField none = Except.ok none
    ∧ base64_decode "aGVsbG8=" = some [104, 101, 108, 108, 111]
    ∧ base64_decode "!!!" = none
    ∧ decodePiecesField (some (Json.str "!!!")) = Except.ok none := by
  refine ⟨?_, ?_, rfl, by decide, by decide, rfl⟩
  · intro s bytes h
    simp [decodePiecesField, deserialize_bitfield, h]
  · intro s h
    simp [decodePiecesField, deserialize_bitfield, h]

/-- Witness for C9 at a valid and at an invalid base64 string. -/
theorem c9_bitfield_decode_witness :
    decodePiecesField (some (Json.str "aGVsbG8=")) = Except.ok (some [104, 101, 108, 108, 111])
    ∧ decodePiecesField (some (Json.str "@@")) = Except.ok none :=
  ⟨c9_bitfield_decode.1 "aGVsbG8=" [104, 101, 108, 108, 111] (by decide),
   c9_bitfield_decode.2.1 "@@" (by decide)⟩

/-- Claim C2 (counterexample): an unauthenticated probe answered with
status 500 and the session header present does NOT get its header
stored — the adaptor fails the cycle with the login error and the
token stays absent — refuting "stored regardless of the HTTP status
code". -/
theorem c2_counterexample :
    process_http_response ⟨none, .SessionStats, none⟩ 0 (.ok ⟨500, some "tok", none⟩)
      = some (⟨none, .SessionStats, none⟩,
          .error (.other "Receive error from HTTP remote for login")) := rfl

/-- Claim C2 (amended): after the unauthenticated probe, the header is
stored as the token only when the response status is 200 OK or 409
Conflict; within those statuses a missing header is a fatal protocol
error, and any other status is a fatal login error regardless of the
header. -/
theorem c2_amended (a : AdaptorState) (now : Int) (resp : HttpResponse)
    (hs : a.session_id = none) :
    ((resp.status = 200 ∨ resp.status = 409) →
      (∀ t, resp.session_id_header = some t →
        process_http_response a now (.ok resp)
          = some ({ a with session_id := some t }, .ok .http))
      ∧ (resp.session_id_header = none →
        process_http_response a now (.ok resp)
          = some (a, .error (.other "Cannot retrieve x-transmission-session-id from remote"))))
    ∧ (resp.status ≠ 200 → resp.status ≠ 409 →
      process_http_response a now (.ok resp)
        = some (a, .error (.other "Receive error from HTTP remote for login"))) := by
  constructor
  · intro hst
    constructor
    · intro t ht
      simp only [process_http_response, hs, ht]
      rw [if_pos hst]
    · intro ht
      simp only [process_http_response, hs, ht]
      rw [if_pos hst]
  · intro h1 h2
    simp only [process_http_response, hs]
    rw [if_neg (by simp [h1, h2])]

/-- Witness for the amended C2 statement: status 409 with the header
present stores the token; status 404 is fatal. -/
theorem c2_amended_witness :
    process_http_response ⟨none, .SessionStats, none⟩ 0 (.ok ⟨409, some "tok", none⟩)
      = some ({ settings := none, state := .SessionStats, session_id := some "tok" }, .ok .http)
    ∧ process_http_response ⟨none, .SessionStats, none⟩ 0 (.ok ⟨404, none, none⟩)
      = some (⟨none, .SessionStats, none⟩,
          .error (.other "Receive error from HTTP remote for login")) :=
  ⟨(c2_amended ⟨none, .SessionStats, none⟩ 0 ⟨409, some "tok", none⟩ rfl).1
      (Or.inr rfl) |>.1 "tok" rfl,
   (c2_amended ⟨none, .SessionStats, none⟩ 0 ⟨404, none, none⟩ rfl).2
      (by decide) (by decide)⟩

/-- The amended throttle condition computes exactly the boolean the
implementation tests in the torrent loop. -/
theorem amendedThrottleCond_eq_code (s : TorrentSettings) (t : TorrentsArguments) :
    amendedThrottleCond s t
      = (!t.upload_limited && t.tracker_list.any fun tl => !s.tracker_allowed tl) := by
  unfold amendedThrottleCond TorrentSettings.tracker_allowed
  cases t.tracker_list with
  | none => rfl
  | some tl =>
    have hall : ∀ l : List String,
        (l.all fun e => !strContains tl e) = !(l.any fun e => strContains tl e) := by
      intro l
      induction l with
      | nil => rfl
      | cons hd rest ih => simp [List.all_cons, List.any_cons, ih]
    simp [hall]

/-- With an empty allowlist the amended throttle condition degenerates
to: not upload-limited and tracker list present. -/
theorem amendedThrottleCond_empty (s : TorrentSettings) (t : TorrentsArguments)
    (hA : s.tracker_allowlist = []) :
    amendedThrottleCond s t = (!t.upload_limited && t.tracker_list.isSome) := by
  unfold amendedThrottleCond
  cases t.tracker_list <;> simp [hA]

/-- Claim C3: a 409 on an authenticated call clears the token, leaves
the fetch state untouched and surfaces no error; the next request
formed is the unauthenticated probe; a successful login (header
present) restores a token while still not touching the state; and the
request formed after recovery carries the same pending call (same
serialized body) as the request formed before the conflict. -/
theorem c3_conflict_recovery (a : AdaptorState) (now : Int) (tok : String)
    (resp : HttpResponse) (hs : a.session_id = some tok) (h409 : resp.status = 409) :
    process_http_response a now (.ok resp) = some ({ a with session_id := none }, .ok .http)
    ∧ ({ a with session_id := (none : Option String) } : AdaptorState).state = a.state
    ∧ create_http_request { a with session_id := none } = .ok probe_request
    ∧ (∀ (t : String) (lresp : HttpResponse), (lresp.status = 200 ∨ lresp.status = 409) →
        lresp.session_id_header = some t →
        process_http_response { a with session_id := none } now (.ok lresp)
          = some ({ a with session_id := some t }, .ok .http)
        ∧ ({ a with session_id := some t } : AdaptorState).state = a.state)
    ∧ (∀ (t : String) (m : Method), a.state.get_method = some m →
        create_http_request { a with session_id := some t } = .ok (rpc_request t m)
        ∧ create_http_request a = .ok (rpc_request tok m)
        ∧ (rpc_request t m).body = (rpc_request tok m).body) := by
  refine ⟨?_, rfl, rfl, ?_, ?_⟩
  · simp [process_http_response, hs, h409]
  · intro t lresp h1 h2
    refine ⟨?_, rfl⟩
    simp only [process_http_response, h2]
    rw [if_pos h1]
  · intro t m hm
    refine ⟨?_, ?_, rfl⟩
    · simp only [create_http_request]
      rw [show ({ a with session_id := some t } : AdaptorState).state = a.state from rfl, hm]
    · simp only [create_http_request, hs, hm]

/-- Witness for C3: a conflict in state `TorrentGet` clears the token
without advancing, and after a login with a fresh token the same
torrent-get call is issued again. -/
theorem c3_conflict_recovery_witness :
    process_http_response ⟨none, .TorrentGet, some "old"⟩ 0 (.ok ⟨409, none, none⟩)
      = some ({ settings := none, state := .TorrentGet, session_id := none }, .ok .http)
    ∧ create_http_request { settings := none, state := .TorrentGet, session_id := some "new" }
      = .ok (rpc_request "new" (Method.TorrentGet
          [.id, .name, .status, .trackerList, .addedDate, .uploadLimited] none)) :=
  ⟨(c3_conflict_recovery ⟨none, .TorrentGet, some "old"⟩ 0 "old" ⟨409, none, none⟩ rfl rfl).1,
   ((c3_conflict_recovery ⟨none, .TorrentGet, some "old"⟩ 0 "old" ⟨409, none, none⟩ rfl
      rfl).2.2.2.2 "new" _ rfl).1⟩

/-- Claim C4 (counterexample): a snapshot whose tracker-list value is
present but EMPTY is added to the throttle list although the claimed
condition (which requires a non-empty tracker-list value) is false for
it — the implementation only tests presence. -/
theorem c4_counterexample :
    torrent_policy (some { tracker_allowlist := ["good-tracker"] }) 0
        [emptyTrackerSnapshot] ([], [], [])
      = some ([], [tidNum 1], [])
    ∧ claimThrottleCond { tracker_allowlist := ["good-tracker"] } emptyTrackerSnapshot
      = false := by
  constructor <;> decide

/-- Claim C4 (amended): a snapshot with an id is added to the throttle
list exactly when it is not upload-limited, its tracker-list value is
PRESENT (emptiness is not checked), and that value contains no
allowlist entry as a substring; with an empty allowlist the condition
degenerates to presence of the tracker list. -/
theorem c4_amended (s : TorrentSettings) (now : Int) (t : TorrentsArguments)
    (i : TorrentId) (sts : List Status) (thr rm : List TorrentId)
    (hid : t.id = some i)
    (h : torrent_policy (some s) now [t] ([], [], []) = some (sts, thr, rm)) :
    (thr = [i] ↔ amendedThrottleCond s t = true)
    ∧ (s.tracker_allowlist = [] →
        (thr = [i] ↔ (!t.upload_limited && t.tracker_list.isSome) = true)) := by
  rw [torrent_policy_singleton] at h
  have hmain : thr = [i] ↔ amendedThrottleCond s t = true := by
    rw [amendedThrottleCond_eq_code]
    simp only [torrent_policy_step, hid] at h
    split at h
    · simp only [Option.some.injEq, Prod.mk.injEq] at h
      obtain ⟨-, hthr, -⟩ := h
      simp_all
    · rename_i hcond
      have hthr : thr = [] := by
        rcases hd : t.added_date with _ | d
        · simp only [hd, Option.some.injEq, Prod.mk.injEq] at h
          exact h.2.1.symm
        · simp only [hd] at h
          rcases hr : s.need_removal now d with _ | b
          · simp only [hr] at h; exact absurd h (by simp)
          · simp only [hr] at h
            cases b <;>
              · simp only [Option.some.injEq, Prod.mk.injEq] at h
                exact h.2.1.symm
      subst hthr
      simp only [Bool.not_eq_true] at hcond
      simp [hcond]
  exact ⟨hmain, fun hA => by rw [← amendedThrottleCond_empty s t hA]; exact hmain⟩

/-- Witness for the amended C4: the spec example snapshot (tracker not
allowlisted, not upload-limited) is throttled. -/
theorem c4_amended_witness :
    (([tidNum 5] : List TorrentId) = [tidNum 5]
      ↔ amendedThrottleCond { tracker_allowlist := ["good-tracker"] }
          { id := some (tidNum 5),
            tracker_list := some "http://unlisted.example/announce" } = true)
    ∧ (({ tracker_allowlist := ["good-tracker"] } : TorrentSettings).tracker_allowlist = [] →
        (([tidNum 5] : List TorrentId) = [tidNum 5]
          ↔ (!({ id := some (tidNum 5),
                 tracker_list := some "http://unlisted.example/announce" } :
                TorrentsArguments).upload_limited
              && ({ id := some (tidNum 5),
                    tracker_list := some "http://unlisted.example/announce" } :
                  TorrentsArguments).tracker_list.isSome) = true)) :=
  c4_amended { tracker_allowlist := ["good-tracker"] } 0
    { id := some (tidNum 5), tracker_list := some "http://unlisted.example/announce" }
    (tidNum 5) [] [tidNum 5] [] rfl (by decide)

/-- Claim C5: a snapshot without an id lands in neither output list;
membership in the removal list requires a present added-date, a
configured max-age, an age strictly above that many days, and a false
throttle condition (empty throttle output for that evaluation); and no
evaluation puts an id in both lists. -/
theorem c5_removal_rules :
    (∀ (sOpt : Option TorrentSettings) (now : Int) (t : TorrentsArguments),
      t.id = none →
      ∃ sts, torrent_policy sOpt now [t] ([], [], []) = some (sts, [], []))
    ∧ (∀ (s : TorrentSettings) (now : Int) (t : TorrentsArguments)
        (i : TorrentId) (sts : List Status) (thr rm : List TorrentId),
        torrent_policy (some s) now [t] ([], [], []) = some (sts, thr, rm) →
        i ∈ rm →
        (∃ d days, t.added_date = some d ∧ s.remove_after = some days
          ∧ now - d.secs > 86400 * (days : Int))
        ∧ thr = []
        ∧ (!t.upload_limited && t.tracker_list.any fun tl => !s.tracker_allowed tl) = false)
    ∧ (∀ (sOpt : Option TorrentSettings) (now : Int) (t : TorrentsArguments)
        (i : TorrentId) (sts : List Status) (thr rm : List TorrentId),
        torrent_policy sOpt now [t] ([], [], []) = some (sts, thr, rm) →
        ¬(i ∈ thr ∧ i ∈ rm)) := by
  refine ⟨?_, ?_, ?_⟩
  · intro sOpt now t hid
    rw [torrent_policy_singleton]
    cases sOpt <;> simp [torrent_policy_step, hid]
  · intro s now t i sts thr rm h hmem
    rw [torrent_policy_singleton] at h
    simp only [torrent_policy_step] at h
    rcases hid : t.id with _ | tid
    · simp only [hid, Option.some.injEq, Prod.mk.injEq] at h
      obtain ⟨-, -, hrm⟩ := h
      rw [← hrm] at hmem
      exact absurd hmem (List.not_mem_nil i)
    · simp only [hid] at h
      split at h
      · rename_i hcond
        simp only [Option.some.injEq, Prod.mk.injEq] at h
        obtain ⟨-, -, hrm⟩ := h
        rw [← hrm] at hmem
        exact absurd hmem (List.not_mem_nil i)
      · rename_i hcond
        rcases hd : t.added_date with _ | d
        · simp only [hd, Option.some.injEq, Prod.mk.injEq] at h
          obtain ⟨-, -, hrm⟩ := h
          rw [← hrm] at hmem
          exact absurd hmem (List.not_mem_nil i)
        · simp only [hd] at h
          rcases hr : s.need_removal now d with _ | b
          · simp only [hr] at h
            exact absurd h (by simp)
          · simp only [hr] at h
            cases b with
            | false =>
              simp only [Option.some.injEq, Prod.mk.injEq] at h
              obtain ⟨-, -, hrm⟩ := h
              rw [← hrm] at hmem
              exact absurd hmem (List.not_mem_nil i)
            | true =>
              simp only [Option.some.injEq, Prod.mk.injEq] at h
              obtain ⟨-, hthr, -⟩ := h
              refine ⟨?_, hthr.symm, by simpa using hcond⟩
              simp only [TorrentSettings.need_removal] at hr
              rcases hra : s.remove_after with _ | days
              · rw [hra] at hr; exact absurd hr (by simp)
              · rw [hra] at hr
                simp only [Option.map_eq_some', Timestamp.checked_sub_signed] at hr
                obtain ⟨cutoff, hcut, hlt⟩ := hr
                refine ⟨d, days, rfl, rfl, ?_⟩
                split at hcut
                · simp only [Option.some.injEq] at hcut
                  subst hcut
                  simp only [decide_eq_true_eq] at hlt
                  omega
                · exact absurd hcut (by simp)
  · intro sOpt now t i sts thr rm h
    rintro ⟨hthr, hrm⟩
    rw [torrent_policy_singleton] at h
    simp only [torrent_policy_step] at h
    rcases hso : sOpt with _ | s <;> rcases hid : t.id with _ | tid <;>
        simp only [hso, hid] at h
    · simp only [Option.some.injEq, Prod.mk.injEq] at h
      obtain ⟨-, h1, -⟩ := h
      rw [← h1] at hthr
      exact absurd hthr (List.not_mem_nil i)
    · simp only [Option.some.injEq, Prod.mk.injEq] at h
      obtain ⟨-, h1, -⟩ := h
      rw [← h1] at hthr
      exact absurd hthr (List.not_mem_nil i)
    · simp only [Option.some.injEq, Prod.mk.injEq] at h
      obtain ⟨-, h1, -⟩ := h
      rw [← h1] at hthr
      exact absurd hthr (List.not_mem_nil i)
    · split at h
      · simp only [Option.some.injEq, Prod.mk.injEq] at h
        obtain ⟨-, -, h2⟩ := h
        rw [← h2] at hrm
        exact absurd hrm (List.not_mem_nil i)
      · rcases hd : t.added_date with _ | d
        · simp only [hd, Option.some.injEq, Prod.mk.injEq] at h
          obtain ⟨-, -, h2⟩ := h
          rw [← h2] at hrm
          exact absurd hrm (List.not_mem_nil i)
        · simp only [hd] at h
          rcases hr : s.need_removal now d with _ | b
          · simp only [hr] at h
            exact absurd h (by simp)
          · simp only [hr] at h
            cases b with
            | false =>
              simp only [Option.some.injEq, Prod.mk.injEq] at h
              obtain ⟨-, -, h2⟩ := h
              rw [← h2] at hrm
              exact absurd hrm (List.not_mem_nil i)
            | true =>
              simp only [Option.some.injEq, Prod.mk.injEq] at h
              obtain ⟨-, h1, -⟩ := h
              rw [← h1] at hthr
              exact absurd hthr (List.not_mem_nil i)

/-- Witness for C5 at the spec example: absent tracker list, added 400
days ago, max-age 30 days — the snapshot is in the removal list only,
and the required conditions hold. -/
theorem c5_removal_rules_witness :
    ((∃ d days,
        ({ id := some (tidNum 2), added_date := some ⟨0⟩ } :
          TorrentsArguments).added_date = some d
        ∧ ({ tracker_allowlist := ["good-tracker"], remove_after := some 30 } :
            TorrentSettings).remove_after = some days
        ∧ (86400 * 400 : Int) - d.secs > 86400 * (days : Int))
      ∧ ([] : List TorrentId) = []
      ∧ (!({ id := some (tidNum 2), added_date := some ⟨0⟩ } :
            TorrentsArguments).upload_limited
          && ({ id := some (tidNum 2), added_date := some ⟨0⟩ } :
              TorrentsArguments).tracker_list.any fun tl =>
            !({ tracker_allowlist := ["good-tracker"], remove_after := some 30 } :
                TorrentSettings).tracker_allowed tl) = false) :=
  c5_removal_rules.2.1
    { tracker_allowlist := ["good-tracker"], remove_after := some 30 } (86400 * 400)
    { id := some (tidNum 2), added_date := some ⟨0⟩ }
    (tidNum 2) [] [] [tidNum 2] (by decide) (by decide)

/-- Claim C10: with no loaded policy configuration the torrent loop
returns empty throttle and removal lists for every snapshot list, and
a torrent-list response in state `TorrentGet` therefore advances
straight to `End` with a stop, never entering the mutation queue. -/
theorem c10_no_settings (a : AdaptorState) (now : Int) (tok : String)
    (hdr : Option String) (resp : Response)
    (hset : a.settings = none) (hst : a.state = TorrentFetchState.TorrentGet)
    (hsid : a.session_id = some tok) :
    (∃ sts, torrent_policy a.settings now resp.arguments.torrents ([], [], [])
      = some (sts, [], []))
    ∧ process_http_response a now (.ok ⟨200, hdr, some resp⟩)
      = some ({ a with state := .End }, .ok FetchAction.none) := by
  constructor
  · rw [hset]
    exact torrent_policy_no_settings now resp.arguments.torrents ([], [], [])
  · simp only [process_http_response, hsid]
    rw [if_pos trivial]
    simp only [process_ok_body, hst, hset]
    obtain ⟨sts, hp⟩ := torrent_policy_no_settings now resp.arguments.torrents ([], [], [])
    rw [hp]
    simp [hsid]

/-- Witness for C10: a response with a snapshot that would qualify for
throttling still ends the cycle at `End` when no policy is loaded. -/
theorem c10_no_settings_witness :
    (∃ sts, torrent_policy none 0
        [(⟨some ⟨0⟩, some (tidNum 1), none, none, some "x", false⟩ : TorrentsArguments)]
        ([], [], [])
      = some (sts, [], []))
    ∧ process_http_response ⟨none, .TorrentGet, some "tok"⟩ 0
        (.ok ⟨200, none,
          some ⟨⟨[⟨some ⟨0⟩, some (tidNum 1), none, none, some "x", false⟩], none⟩,
            "success", none⟩⟩)
      = some ({ settings := none, state := .End, session_id := some "tok" },
          .ok FetchAction.none) :=
  c10_no_settings ⟨none, .TorrentGet, some "tok"⟩ 0 "tok" none
    ⟨⟨[⟨some ⟨0⟩, some (tidNum 1), none, none, some "x", false⟩], none⟩, "success", none⟩
    rfl rfl rfl

/-- Claim C6: `fetch` always restarts a cycle at the session-stats
state (discarding any leftover mutation queue) and asks for an HTTP
exchange; every processed response advances the state only along
`Initial → TorrentListStep → (MutateQueue | Done)`; and a cycle that
starts without a token and finds no torrent needing mutation issues
exactly the login probe followed by two authenticated requests
(session-stats, then torrent-get) and ends at `End` with a stop and no
pending queue. -/
theorem c6_cycle_shape :
    (∀ a : AdaptorState,
      (fetch a).1.state = TorrentFetchState.SessionStats ∧ (fetch a).2 = FetchAction.http)
    ∧ (∀ (a : AdaptorState) (now : Int) (r : Except FetcherError HttpResponse)
        (a2 : AdaptorState) (out : Except FetcherError FetchAction),
        process_http_response a now r = some (a2, out) → stateAdvanceOk a.state a2.state)
    ∧ runCycle 0
        ⟨some ⟨["tracker"], some 30⟩,
         .TorrentMut [Method.TorrentRemove [tidNum 9] false], none⟩
        [.ok ⟨409, some "tok", none⟩,
         .ok ⟨200, none, some ⟨⟨[], some ⟨0, 0, 0, none, 0⟩⟩, "success", none⟩⟩,
         .ok ⟨200, none,
           some ⟨⟨[⟨none, some (tidNum 3), none, some .seed, some "tracker-url", false⟩],
             none⟩, "success", none⟩⟩]
      = some ([probe_request,
               rpc_request "tok" Method.SessionStats,
               rpc_request "tok" (Method.TorrentGet
                 [.id, .name, .status, .trackerList, .addedDate, .uploadLimited] none)],
              ⟨some ⟨["tracker"], some 30⟩, .End, some "tok"⟩,
              .ok FetchAction.none) := by
  refine ⟨fun a => ⟨rfl, rfl⟩, ?_, ?_⟩
  · intro a now r a2 out h
    rcases r with e | resp
    · rcases e with ⟨c, addr⟩ | m | m
      · simp only [process_http_response] at h
        cases c <;> simp only [Bool.false_eq_true, if_false, if_true] at h <;>
          · simp only [Option.some.injEq, Prod.mk.injEq] at h
            obtain ⟨h1, -⟩ := h
            rw [← h1]
            exact stateAdvanceOk_refl a.state
      · simp only [process_http_response, Option.some.injEq, Prod.mk.injEq] at h
        obtain ⟨h1, -⟩ := h
        rw [← h1]
        exact stateAdvanceOk_refl a.state
      · simp only [process_http_response, Option.some.injEq, Prod.mk.injEq] at h
        obtain ⟨h1, -⟩ := h
        rw [← h1]
        exact stateAdvanceOk_refl a.state
    · rcases hsid : a.session_id with _ | tok
      · simp only [process_http_response, hsid] at h
        by_cases hst : resp.status = 200 ∨ resp.status = 409
        · rw [if_pos hst] at h
          rcases hh : resp.session_id_header with _ | t <;> simp only [hh] at h <;>
            · simp only [Option.some.injEq, Prod.mk.injEq] at h
              obtain ⟨h1, -⟩ := h
              rw [← h1]
              exact stateAdvanceOk_refl a.state
        · rw [if_neg hst] at h
          simp only [Option.some.injEq, Prod.mk.injEq] at h
          obtain ⟨h1, -⟩ := h
          rw [← h1]
          exact stateAdvanceOk_refl a.state
      · simp only [process_http_response, hsid] at h
        by_cases h200 : resp.status = 200
        · rw [if_pos h200] at h
          rcases hb : resp.body with _ | api <;> simp only [hb] at h
          · simp only [Option.some.injEq, Prod.mk.injEq] at h
            obtain ⟨h1, -⟩ := h
            rw [← h1]
            exact stateAdvanceOk_refl a.state
          · rcases hstate : a.state with _ | _ | l | _ <;>
              simp only [process_ok_body, hstate] at h
            · simp only [Option.some.injEq, Prod.mk.injEq] at h
              obtain ⟨h1, -⟩ := h
              rw [← h1]
              trivial
            · rcases hp : torrent_policy a.settings now api.arguments.torrents ([], [], [])
                with _ | trip
              · simp only [hp] at h
                exact Option.noConfusion h
              · obtain ⟨sts0, npl, rml⟩ := trip
                simp only [hp] at h
                split at h <;>
                  · simp only [Option.some.injEq, Prod.mk.injEq] at h
                    obtain ⟨h1, -⟩ := h
                    rw [← h1]
                    trivial
            · simp only [Option.some.injEq, Prod.mk.injEq] at h
              obtain ⟨h1, -⟩ := h
              rw [← h1]
              trivial
            · simp only [Option.some.injEq, Prod.mk.injEq] at h
              obtain ⟨h1, -⟩ := h
              rw [← h1, hstate]
              trivial
        · rw [if_neg h200] at h
          by_cases h409 : resp.status = 409
          · rw [if_pos h409] at h
            simp only [Option.some.injEq, Prod.mk.injEq] at h
            obtain ⟨h1, -⟩ := h
            rw [← h1]
            exact stateAdvanceOk_refl a.state
          · rw [if_neg h409] at h
            simp only [Option.some.injEq, Prod.mk.injEq] at h
            obtain ⟨h1, -⟩ := h
            rw [← h1]
            exact stateAdvanceOk_refl a.state
  · rfl

/-- Witness for the transition-order part of C6: a session-stats
response advances `SessionStats` to `TorrentGet`, an allowed step. -/
theorem c6_cycle_shape_witness :
    stateAdvanceOk TorrentFetchState.SessionStats TorrentFetchState.TorrentGet :=
  c6_cycle_shape.2.1 ⟨none, .SessionStats, some "s"⟩ 0
    (.ok ⟨200, none, some ⟨⟨[], none⟩, "success", none⟩⟩)
    ⟨none, .TorrentGet, some "s"⟩ (.ok .http) rfl

end OVServer
